import Mathlib

/-!
Shallow embedding of `service.go` of the go-gousu-smtp repository
(package `goususmtp`), and proofs about it.

The worker goroutine started by `Service.Start` is modelled as a state
machine: its local state (`open`, `s.error`) is a `WorkerState`, each
iteration of its `select` loop consumes one `Event` (a message received on
`channelIn` together with the outcomes the transport produces, the closing
of `channelIn`, or the firing of the 30-second `time.After` idle timer) and
produces the values sent on `channelOut` plus a trace of the transport
operations performed (`WAction`).

`Service.SendEmail` composes a `mail.Message` of the go-mail library; the
operations of that library used by the code (`NewMessage`, `SetHeader`,
`SetBody`, `AttachReader`, `EmbedReader`) are modelled by `MailMessage`
and its helpers, following the library's documented semantics (in
particular `SetBody` replaces any previously set body, while
`AttachReader`/`EmbedReader` append).
-/

namespace GousuSmtp

variable {Err Msg : Type}

/-- State owned by the worker goroutine of `Service.Start`: `isOpen` is the
local variable `open` (line 75 of service.go), `error` models the field
`s.error` read by `Service.Health`. A transport error is an `Err`; `none`
models the Go `nil` error. -/
structure WorkerState (Err : Type) where
  isOpen : Bool
  error : Option Err
deriving Repr, DecidableEq

/-- Initial worker state: `open = false` (line 75), `s.error = nil`
(zero value, never assigned before the loop runs). -/
def initState : WorkerState Err :=
  { isOpen := false, error := none }

/-- One arm of the worker's `select` (lines 80-112 of service.go):
either a message `m` is received from `channelIn` (carrying the outcomes the
transport would produce: `dialR` for `dialer.Dial`, consulted only when the
connection is closed, and `sendR` for `mail.Send`), or `channelIn` was
closed, or the 30-second `time.After` timer fired (`closeR` is the outcome
of `closer.Close` on that path). -/
inductive Event (Err Msg : Type) where
  | recv (m : Msg) (dialR : Option Err) (sendR : Option Err)
  | chanClosed
  | idleTimeout (closeR : Option Err)
deriving Repr, DecidableEq

/-- Transport operations performed by the worker, in order: a dial attempt
with its outcome, a send attempt of a message with its outcome, a
`closer.Close()` whose result is discarded (send-failure path, line 95), and
a `closer.Close()` on the idle-timeout path whose error is only logged
(lines 107-109). -/
inductive WAction (Err Msg : Type) where
  | dialAtt (result : Option Err)
  | sendAtt (m : Msg) (result : Option Err)
  | closeConn
  | idleClose (result : Option Err)
deriving Repr, DecidableEq

/-- Result of one iteration of the worker loop: the new state, the values
sent on `s.channelOut` (in order), the transport operations performed, and
whether the goroutine returned (`channelIn` closed). -/
structure StepOut (Err Msg : Type) where
  state : WorkerState Err
  outputs : List (Option Err)
  actions : List (WAction Err Msg)
  done : Bool
deriving Repr, DecidableEq

/-- Lines 94-101 of service.go, run once a connection is available: on send
failure, `closer.Close()` (result discarded), `open = false`, the error is
sent on `channelOut`; on success `nil` is sent on `channelOut`. `s.error`
is not assigned on either path. `acc` holds the actions already performed
in this iteration (a preceding dial, if any). -/
def doSend (st : WorkerState Err) (m : Msg) (sendR : Option Err)
    (acc : List (WAction Err Msg)) : StepOut Err Msg :=
  match sendR with
  | some err =>
    { state := { isOpen := false, error := st.error },
      outputs := [some err],
      actions := acc ++ [WAction.sendAtt m (some err), WAction.closeConn],
      done := false }
  | none =>
    { state := st,
      outputs := [none],
      actions := acc ++ [WAction.sendAtt m none],
      done := false }

/-- One iteration of the worker loop of `Service.Start` (lines 79-113 of
service.go). On `recv` with the connection closed, the worker dials: on
dial failure it assigns `s.error = err` and `continue`s -- nothing is sent
on `channelOut` on this path (lines 86-89); on dial success it sets
`open = true`, `s.error = nil` and proceeds to the send. On `idleTimeout`
with the connection open it closes it (error only logged) and sets
`open = false`. On `chanClosed` the goroutine returns. -/
def workerStep (st : WorkerState Err) (ev : Event Err Msg) : StepOut Err Msg :=
  match ev with
  | Event.chanClosed =>
    { state := st, outputs := [], actions := [], done := true }
  | Event.recv m dialR sendR =>
    if st.isOpen then
      doSend st m sendR []
    else
      match dialR with
      | some err =>
        { state := { isOpen := false, error := some err },
          outputs := [],
          actions := [WAction.dialAtt (some err)],
          done := false }
      | none =>
        doSend { isOpen := true, error := none } m sendR [WAction.dialAtt none]
  | Event.idleTimeout closeR =>
    if st.isOpen then
      { state := { st with isOpen := false },
        outputs := [],
        actions := [WAction.idleClose closeR],
        done := false }
    else
      { state := st, outputs := [], actions := [], done := false }

/-- Cumulative result of running the worker loop over a list of events. -/
structure RunOut (Err Msg : Type) where
  state : WorkerState Err
  outputs : List (Option Err)
  actions : List (WAction Err Msg)
deriving Repr, DecidableEq

/-- Run the worker loop over a list of events, stopping when `channelIn`
is observed closed. -/
def runWorker (st : WorkerState Err) : List (Event Err Msg) → RunOut Err Msg
  | [] => { state := st, outputs := [], actions := [] }
  | ev :: evs =>
    let so := workerStep st ev
    if so.done then
      { state := so.state, outputs := so.outputs, actions := so.actions }
    else
      let ro := runWorker so.state evs
      { state := ro.state,
        outputs := so.outputs ++ ro.outputs,
        actions := so.actions ++ ro.actions }

/-- `Service.Health` (lines 128-134 of service.go): returns `s.error` if it
is non-nil, else `nil`. -/
def Health (st : WorkerState Err) : Option Err :=
  match st.error with
  | some e => some e
  | none => none

/-- Outcome of the most recent dial attempt recorded in an action trace,
if any dial attempt occurs in it. -/
def lastDialResult : List (WAction Err Msg) → Option (Option Err)
  | [] => none
  | a :: rest =>
    match lastDialResult rest with
    | some r => some r
    | none =>
      match a with
      | WAction.dialAtt r => some r
      | _ => none

/-- `EmailAttachement` of service.go (lines 25-30); the raw byte content is
modelled as a list of naturals. -/
structure EmailAttachement where
  Filename : String
  Mimetype : String
  Embedded : Bool
  Content : List Nat
deriving Repr, DecidableEq

/-- `Email` of service.go (lines 33-42). The Go slice `Attachements` is a
list; the `m.Attachements != nil` guard of line 157 is behaviourally the
loop over a possibly empty list. -/
structure Email where
  From : String
  To : String
  Subject : String
  BodyPlain : String
  BodyHTML : String
  Attachements : List EmailAttachement
deriving Repr, DecidableEq

/-- Model of the go-mail `mail.Message` as used by `Service.SendEmail`:
headers set via `SetHeader`, the body parts, and the attached and embedded
files (filename plus content read from the `bytes.Reader`). -/
structure MailMessage where
  headers : List (String × List String)
  parts : List (String × String)
  attachments : List (String × List Nat)
  embedded : List (String × List Nat)
deriving Repr, DecidableEq

/-- Model of go-mail `mail.NewMessage()`: a fresh empty message. -/
def MailMessage.new : MailMessage :=
  { headers := [], parts := [], attachments := [], embedded := [] }

/-- Model of go-mail `Message.SetHeader(field, value)`: stores the value for
the field, replacing any previous value of that field. -/
def setHeader (msg : MailMessage) (field : String) (value : String) : MailMessage :=
  { msg with
    headers := msg.headers.filter (fun h => !(h.1 == field)) ++ [(field, [value])] }

/-- Model of go-mail `Message.SetBody(contentType, body)`: per the library's
documentation it replaces any content previously set by `SetBody` or
`AddAlternative` (the implementation assigns a fresh one-element part list). -/
def setBody (msg : MailMessage) (contentType : String) (body : String) : MailMessage :=
  { msg with parts := [(contentType, body)] }

/-- Model of go-mail `Message.AttachReader(filename, reader)`: appends a
regular attachment. -/
def attachReader (msg : MailMessage) (filename : String) (content : List Nat) :
    MailMessage :=
  { msg with attachments := msg.attachments ++ [(filename, content)] }

/-- Model of go-mail `Message.EmbedReader(filename, reader)`: appends an
embedded (inline) file. -/
def embedReader (msg : MailMessage) (filename : String) (content : List Nat) :
    MailMessage :=
  { msg with embedded := msg.embedded ++ [(filename, content)] }

/-- The `for` loop over `m.Attachements` in `Service.SendEmail`
(lines 157-168 of service.go): each attachment is embedded when its
`Embedded` flag is set, attached otherwise. -/
def addAttachements (msg : MailMessage) : List EmailAttachement → MailMessage
  | [] => msg
  | a :: rest =>
    addAttachements
      (if a.Embedded then embedReader msg a.Filename a.Content
       else attachReader msg a.Filename a.Content) rest

/-- Lines 138-147 of `Service.SendEmail`: a fresh message with the `From`
header (defaulted to the `smtp_from` flag when `m.From` is empty, lines
140-143), the `To` header and the `Subject` header. -/
def composeHeaders (smtpFrom : String) (m : Email) : MailMessage :=
  setHeader
    (setHeader
      (setHeader MailMessage.new "From" (if m.From = "" then smtpFrom else m.From))
      "To" m.To)
    "Subject" m.Subject

/-- Lines 149-155 of `Service.SendEmail`: set the plain body when non-empty,
then set the HTML body when non-empty. -/
def composeBody (m : Email) (msg : MailMessage) : MailMessage :=
  let msg1 := if m.BodyPlain ≠ "" then setBody msg "text/plain" m.BodyPlain else msg
  if m.BodyHTML ≠ "" then setBody msg1 "text/html" m.BodyHTML else msg1

/-- The message-composition part of `Service.SendEmail` (lines 138-168 of
service.go): headers, then bodies, then attachments. -/
def sendEmailCompose (smtpFrom : String) (m : Email) : MailMessage :=
  addAttachements (composeBody m (composeHeaders smtpFrom m)) m.Attachements

/-- `Service.SendEmail` (lines 137-173 of service.go): composes the message,
sends it on `s.channelIn` and returns the value received from
`s.channelOut` (`workerResp`). The code is straight-line: no field of `m`
is validated and no early return exists, so the returned error is exactly
the worker's response. The first component is the message handed to the
worker. -/
def SendEmail (Err : Type) (smtpFrom : String) (m : Email)
    (workerResp : Option Err) : MailMessage × Option Err :=
  (sendEmailCompose smtpFrom m, workerResp)

/-- Look up a header field of a composed message. -/
def getHeader (msg : MailMessage) (field : String) : Option (List String) :=
  (msg.headers.find? (fun h => h.1 == field)).map (fun h => h.2)

theorem lastDialResult_append (xs ys : List (WAction Err Msg)) :
    lastDialResult (xs ++ ys) =
      match lastDialResult ys with
      | some r => some r
      | none => lastDialResult xs := by
  induction xs with
  | nil =>
    cases h : lastDialResult ys <;> simp [lastDialResult, h]
  | cons a xs ih =>
    simp only [List.cons_append, lastDialResult, List.append_eq, ih]
    cases lastDialResult ys <;> cases lastDialResult xs <;> rfl

theorem health_workerStep (st : WorkerState Err) (ev : Event Err Msg) :
    Health (workerStep st ev).state =
      match lastDialResult (workerStep st ev).actions with
      | some r => r
      | none => Health st := by
  cases ev with
  | chanClosed => rfl
  | recv m dialR sendR =>
    cases hOpen : st.isOpen <;> cases dialR <;> cases sendR <;>
      simp [workerStep, doSend, Health, lastDialResult, hOpen]
  | idleTimeout closeR =>
    cases hOpen : st.isOpen <;> simp [workerStep, lastDialResult, Health, hOpen]

theorem health_runWorker (evs : List (Event Err Msg)) (st : WorkerState Err) :
    Health (runWorker st evs).state =
      match lastDialResult (runWorker st evs).actions with
      | some r => r
      | none => Health st := by
  induction evs generalizing st with
  | nil => rfl
  | cons ev evs ih =>
    simp only [runWorker]
    cases hdone : (workerStep st ev).done with
    | true =>
      simp only [hdone, if_true]
      exact health_workerStep st ev
    | false =>
      simp only [hdone, Bool.false_eq_true, if_false]
      rw [lastDialResult_append]
      cases hro : lastDialResult (runWorker (workerStep st ev).state evs).actions with
      | some r => rw [ih (workerStep st ev).state, hro]
      | none =>
        rw [ih (workerStep st ev).state, hro]
        exact health_workerStep st ev

theorem composeHeaders_eq (cfg : String) (m : Email) :
    composeHeaders cfg m =
      { headers := [("From", [if m.From = "" then cfg else m.From]),
                    ("To", [m.To]), ("Subject", [m.Subject])],
        parts := [], attachments := [], embedded := [] } :=
  rfl

theorem composeBody_headers (m : Email) (msg : MailMessage) :
    (composeBody m msg).headers = msg.headers := by
  simp only [composeBody]
  split <;> split <;> rfl

theorem composeBody_attachments (m : Email) (msg : MailMessage) :
    (composeBody m msg).attachments = msg.attachments := by
  simp only [composeBody]
  split <;> split <;> rfl

theorem composeBody_embedded (m : Email) (msg : MailMessage) :
    (composeBody m msg).embedded = msg.embedded := by
  simp only [composeBody]
  split <;> split <;> rfl

theorem composeBody_parts (m : Email) (msg : MailMessage) :
    (composeBody m msg).parts =
      if m.BodyHTML ≠ "" then [("text/html", m.BodyHTML)]
      else if m.BodyPlain ≠ "" then [("text/plain", m.BodyPlain)]
      else msg.parts := by
  simp only [composeBody]
  split <;> split <;> simp_all [setBody]

theorem addAttachements_headers (l : List EmailAttachement) (msg : MailMessage) :
    (addAttachements msg l).headers = msg.headers := by
  induction l generalizing msg with
  | nil => rfl
  | cons a rest ih =>
    cases hE : a.Embedded <;>
      simp [addAttachements, hE, ih, embedReader, attachReader]

theorem addAttachements_parts (l : List EmailAttachement) (msg : MailMessage) :
    (addAttachements msg l).parts = msg.parts := by
  induction l generalizing msg with
  | nil => rfl
  | cons a rest ih =>
    cases hE : a.Embedded <;>
      simp [addAttachements, hE, ih, embedReader, attachReader]

theorem addAttachements_attachments (l : List EmailAttachement) (msg : MailMessage) :
    (addAttachements msg l).attachments =
      msg.attachments ++
        (l.filter (fun a => !a.Embedded)).map (fun a => (a.Filename, a.Content)) := by
  induction l generalizing msg with
  | nil => simp [addAttachements]
  | cons a rest ih =>
    cases hE : a.Embedded <;>
      simp [addAttachements, hE, ih, embedReader, attachReader, List.filter_cons]

theorem addAttachements_embedded (l : List EmailAttachement) (msg : MailMessage) :
    (addAttachements msg l).embedded =
      msg.embedded ++
        (l.filter (fun a => a.Embedded)).map (fun a => (a.Filename, a.Content)) := by
  induction l generalizing msg with
  | nil => simp [addAttachements]
  | cons a rest ih =>
    cases hE : a.Embedded <;>
      simp [addAttachements, hE, ih, embedReader, attachReader, List.filter_cons]

/-- Claim C1 (code evaluated at the failing input): when the worker is in the
initial Closed state and the dial attempt fails, the worker records the dial
error in `s.error` but sends nothing on `s.channelOut`: the outputs list is
empty, so the pending `SendEmail` call never receives the dial error and
blocks on `<-s.channelOut` instead of returning it. -/
theorem dial_failure_drops_response :
    workerStep (initState : WorkerState String) (Event.recv "email message" (some "dial failed") none) =
      { state := { isOpen := false, error := some "dial failed" },
        outputs := [],
        actions := [WAction.dialAtt (some "dial failed")],
        done := false } ∧
    Health ({ isOpen := false, error := some "dial failed" } : WorkerState String) =
      some "dial failed" :=
  ⟨rfl, rfl⟩

/-- Claim C2 (code evaluated at the failing input): a message received while
the worker is Closed whose dial attempt fails produces zero values on the
response channel, not exactly one; a message for which a connection is
available produces exactly one. -/
theorem dial_failure_emits_zero_responses :
    ((workerStep (initState : WorkerState String)
        (Event.recv "first email" (some "connection refused") none)).outputs).length = 0 ∧
    ((workerStep ({ isOpen := true, error := none } : WorkerState String)
        (Event.recv "second email" none none)).outputs).length = 1 :=
  ⟨rfl, rfl⟩

/-- Claim C3: over every run of the worker loop from the initial state,
`Health` returns `nil` when no dial attempt occurred or the most recent dial
attempt succeeded, and returns the error of the most recent dial attempt
otherwise; in particular send failures never change it, since only the dial
step writes `s.error`. -/
theorem Health_reflects_most_recent_dial (evs : List (Event Err Msg)) :
    Health (runWorker (initState : WorkerState Err) evs).state =
      match lastDialResult (runWorker (initState : WorkerState Err) evs).actions with
      | some r => r
      | none => none :=
  health_runWorker evs (initState : WorkerState Err)

/-- Claim C4: a send failure on an Open connection closes the transport
connection, moves the worker to Closed and resolves the pending request with
the send error; the same holds on a freshly dialed connection; and every
request processed from the Closed state performs a dial attempt before
any other transport operation. -/
theorem send_failure_closes_then_redials (e : Option Err) (m : Msg) (dialR : Option Err) (err : Err) :
    (workerStep { isOpen := true, error := e } (Event.recv m dialR (some err)) =
      { state := { isOpen := false, error := e },
        outputs := [some err],
        actions := [WAction.sendAtt m (some err), WAction.closeConn],
        done := false }) ∧
    (workerStep { isOpen := false, error := e } (Event.recv m none (some err)) =
      { state := { isOpen := false, error := none },
        outputs := [some err],
        actions := [WAction.dialAtt none, WAction.sendAtt m (some err), WAction.closeConn],
        done := false }) ∧
    (∀ (m2 : Msg) (dialR2 sendR2 : Option Err),
      (workerStep { isOpen := false, error := e } (Event.recv m2 dialR2 sendR2)).actions.head? =
        some (WAction.dialAtt dialR2)) := by
  refine ⟨rfl, rfl, ?_⟩
  intro m2 dialR2 sendR2
  cases dialR2 <;> cases sendR2 <;> rfl

/-- Claim C5: a sequence of consecutive requests whose sends all succeed,
processed while the connection is Open, leaves the worker Open, performs only
the send attempts (no dial attempt, no close), and resolves every request
with `nil`; `s.error` is untouched. -/
theorem open_successful_sends_reuse_connection (e : Option Err) (ms : List (Msg × Option Err)) :
    runWorker { isOpen := true, error := e } (ms.map fun p => Event.recv p.1 p.2 none) =
      { state := { isOpen := true, error := e },
        outputs := ms.map fun _ => (none : Option Err),
        actions := ms.map fun p => WAction.sendAtt p.1 none } := by
  induction ms with
  | nil => rfl
  | cons p ps ih => simp [runWorker, workerStep, doSend, ih]

/-- Claim C6: when the idle timer fires while the connection is Open, the
worker closes the transport connection and becomes Closed; nothing is emitted
on the response channel, and the outcome of the close (`closeR`, even an
error) is neither surfaced nor recorded in `s.error`, so `Health` is
unchanged. -/
theorem idle_timeout_closes_silently (e : Option Err) (closeR : Option Err) :
    workerStep { isOpen := true, error := e } (Event.idleTimeout closeR : Event Err Msg) =
      { state := { isOpen := false, error := e },
        outputs := [],
        actions := [WAction.idleClose closeR],
        done := false } ∧
    Health ({ isOpen := false, error := e } : WorkerState Err) =
      Health ({ isOpen := true, error := e } : WorkerState Err) :=
  ⟨rfl, rfl⟩

/-- Claim C7: the composed message's `From` header is the configured
`smtp_from` value when the email's `From` field is empty, and the email's
`From` field unchanged otherwise. -/
theorem from_header_uses_default_when_empty (cfg : String) (m : Email) :
    getHeader (sendEmailCompose cfg m) "From" =
      some [if m.From = "" then cfg else m.From] := by
  unfold sendEmailCompose getHeader
  rw [addAttachements_headers, composeBody_headers, composeHeaders_eq]
  rfl

/-- Claim C8: every attachment of the email appears in the composed message,
in order and with filename and content preserved: those with the `Embedded`
flag as embedded (inline) files, the others as regular attachments. -/
theorem attachments_routed_by_embedded_flag (cfg : String) (m : Email) :
    (sendEmailCompose cfg m).embedded =
      (m.Attachements.filter (fun a => a.Embedded)).map (fun a => (a.Filename, a.Content)) ∧
    (sendEmailCompose cfg m).attachments =
      (m.Attachements.filter (fun a => !a.Embedded)).map (fun a => (a.Filename, a.Content)) := by
  unfold sendEmailCompose
  constructor
  · rw [addAttachements_embedded, composeBody_embedded, composeHeaders_eq]
    rfl
  · rw [addAttachements_attachments, composeBody_attachments, composeHeaders_eq]
    rfl

/-- Claim C9: when both bodies are non-empty, the plain body is set first and
the HTML body is set second, and since `SetBody` replaces the previous body,
the composed message's body parts are exactly the HTML body. -/
theorem html_body_overrides_plain (cfg : String) (m : Email)
    (h1 : m.BodyPlain ≠ "") (h2 : m.BodyHTML ≠ "") :
    (sendEmailCompose cfg m).parts = [("text/html", m.BodyHTML)] := by
  unfold sendEmailCompose
  rw [addAttachements_parts, composeBody_parts, if_pos h2]

/-- Witness for C9 at a concrete email with both bodies non-empty. -/
theorem html_body_overrides_plain_witness :
    (("plain text" : String) ≠ "" ∧ ("html text" : String) ≠ "") ∧
    (sendEmailCompose "sender" ⟨"", "to", "subj", "plain text", "html text", []⟩).parts =
      [("text/html", "html text")] :=
  ⟨⟨by decide, by decide⟩,
    html_body_overrides_plain "sender" ⟨"", "to", "subj", "plain text", "html text", []⟩
      (by decide) (by decide)⟩

/-- Claim C10: `SendEmail` validates nothing: for every email the composed
message is handed to the worker and the returned error is exactly the value
received from the worker's response channel; in particular an email with
empty `To` and both bodies empty is still composed (headers set, no body
parts) and produces no error of `SendEmail`'s own. -/
theorem sendEmail_returns_worker_response (cfg : String) (m : Email) (resp : Option Nat) :
    (SendEmail Nat cfg m resp).2 = resp ∧
    (SendEmail Nat cfg m resp).1 = sendEmailCompose cfg m ∧
    SendEmail Nat cfg ⟨"", "", "", "", "", []⟩ (some 7) =
      ({ headers := [("From", [cfg]), ("To", [""]), ("Subject", [""])],
         parts := [], attachments := [], embedded := [] }, some 7) :=
  ⟨rfl, rfl, rfl⟩

end GousuSmtp
